import Mathlib

/-!
Verification of the orchestration core of the capstone-agents-mvp repository.

Shallow embedding of:
* `src/core/context.py` (`SharedContext`),
* `src/core/rate_limiter.py` (`RateLimiter.wait_if_needed`),
* `src/agents/coordinator.py` (`CoordinatorAgent.execute_analysis` control flow
  and its observability events, `src/core/observability.py`),
* the anomaly-detection tool invoked by the coordinator
  (`AnomalyDetectorTool.execute`; only its callers, imports and tests are in
  the source tree, so it is modelled from the specification),
* the report-assembly step and `AnalystAgent._extract_patterns`
  (`src/agents/analyst.py`).

Python `dict`s are modelled as insertion-ordered association lists, wall-clock
timestamps as explicit numeric parameters, `asyncio.sleep` as a returned wait
duration, and a raised exception as an explicit error value carried next to
the post-mutation state (Python objects keep their mutations when a method
raises).
-/

namespace Capstone

/-! ### JSON-like values (payloads stored in `SharedContext`) -/

/-- A JSON-like Python value: `None`, `int`, `str`, `list`, or `dict`
(the `dict` keeps insertion order, as Python dicts do). -/
inductive Value where
  | vnull : Value
  | vint : Int → Value
  | vstr : String → Value
  | vlist : List Value → Value
  | vdict : List (String × Value) → Value
deriving Repr

/-- `isinstance(v, dict)`. -/
def Value.isDict : Value → Bool
  | Value.vdict _ => true
  | _ => false

/-- `key in d` for a Python dict. -/
def hasKey (l : List (String × Value)) (k : String) : Bool :=
  l.any (fun p => p.1 == k)

/-- `d[key]` lookup (`None`-free: `Option`). -/
def lookupKey (l : List (String × Value)) (k : String) : Option Value :=
  match l.find? (fun p => p.1 == k) with
  | some p => some p.2
  | none => none

/-- `d[key] = v` on a Python dict: overwrite in place if the key exists
(keeping its position), otherwise append at the end. -/
def dictInsert (l : List (String × Value)) (k : String) (v : Value) :
    List (String × Value) :=
  if hasKey l k then l.map (fun p => if p.1 == k then (k, v) else p)
  else l ++ [(k, v)]

/-- `base.update(upd)` on Python dicts: fold the entries of `upd` into
`base` from the left. -/
def dictUpdate (base upd : List (String × Value)) : List (String × Value) :=
  upd.foldl (fun acc p => dictInsert acc p.1 p.2) base

/-! ### `SharedContext` — src/core/context.py -/

/-- State of a `SharedContext` instance: the `_data` dict and the two
timestamps (`datetime.now().isoformat()` is abstracted to a `Nat` clock). -/
structure SharedContext where
  data : List (String × Value)
  created_at : Nat
  updated_at : Nat

/-- `SharedContext.__init__`: empty data, both timestamps set to now. -/
def SharedContext.init (t : Nat) : SharedContext :=
  { data := [], created_at := t, updated_at := t }

/-- `SharedContext.set(key, value)` at wall-clock time `now`. -/
def SharedContext.set (ctx : SharedContext) (key : String) (value : Value)
    (now : Nat) : SharedContext :=
  { ctx with data := dictInsert ctx.data key value, updated_at := now }

/-- `SharedContext.get(key, default)`. -/
def SharedContext.get (ctx : SharedContext) (key : String) (dflt : Value) :
    Value :=
  (lookupKey ctx.data key).getD dflt

/-- Result of `SharedContext.update`: the post-call state of the object
(Python keeps mutations performed before a `raise`), and the message of the
raised `ValueError`, if any. -/
structure UpdateOutcome where
  ctx : SharedContext
  raised : Option String

/-- `SharedContext.update(key, partial_value)` — src/core/context.py lines
63–79.  If the key is absent an empty dict is installed first; then, if both
the stored value and the argument are dicts, they are merged and
`_updated_at` advances; otherwise a `ValueError` is raised (after the empty
dict was already installed). -/
def SharedContext.update (ctx : SharedContext) (key : String) (pval : Value)
    (now : Nat) : UpdateOutcome :=
  let data1 := if hasKey ctx.data key then ctx.data
               else ctx.data ++ [(key, Value.vdict [])]
  match lookupKey data1 key, pval with
  | some (Value.vdict base), Value.vdict upd =>
      { ctx := { ctx with
                  data := dictInsert data1 key (Value.vdict (dictUpdate base upd)),
                  updated_at := now },
        raised := none }
  | _, _ =>
      { ctx := { ctx with data := data1 },
        raised := some ("Key '" ++ key ++
          "' must contain a dictionary for update operation") }

/-- Appending a fresh binding at the end of a dict whose keys avoid `k`
makes `k` resolve to the appended value. -/
theorem lookupKey_append_fresh (l : List (String × Value)) (k : String)
    (v : Value) (h : hasKey l k = false) :
    lookupKey (l ++ [(k, v)]) k = some v := by
  induction l with
  | nil => simp [lookupKey, List.find?]
  | cons p rest ih =>
      simp only [hasKey, List.any_cons, Bool.or_eq_false_iff] at h
      simp only [List.cons_append, lookupKey, List.find?, h.1]
      exact ih h.2

/-- C4: two successive dict merges under one key accumulate both entries;
a later merge of a non-dict raises and leaves the stored value unchanged. -/
theorem c4_context_merge_type_safety :
    ((SharedContext.init 0).update "k"
        (Value.vdict [("a", Value.vint 1)]) 1).raised = none ∧
    ((((SharedContext.init 0).update "k"
        (Value.vdict [("a", Value.vint 1)]) 1).ctx.update "k"
        (Value.vdict [("b", Value.vint 2)]) 2).raised = none) ∧
    ((((SharedContext.init 0).update "k"
        (Value.vdict [("a", Value.vint 1)]) 1).ctx.update "k"
        (Value.vdict [("b", Value.vint 2)]) 2).ctx.get "k" Value.vnull
      = Value.vdict [("a", Value.vint 1), ("b", Value.vint 2)]) ∧
    (((((SharedContext.init 0).update "k"
        (Value.vdict [("a", Value.vint 1)]) 1).ctx.update "k"
        (Value.vdict [("b", Value.vint 2)]) 2).ctx.update "k"
        (Value.vlist [Value.vint 1, Value.vint 2]) 3).raised.isSome = true) ∧
    (((((SharedContext.init 0).update "k"
        (Value.vdict [("a", Value.vint 1)]) 1).ctx.update "k"
        (Value.vdict [("b", Value.vint 2)]) 2).ctx.update "k"
        (Value.vlist [Value.vint 1, Value.vint 2]) 3).ctx.get "k" Value.vnull
      = Value.vdict [("a", Value.vint 1), ("b", Value.vint 2)]) := by
  exact ⟨rfl, rfl, rfl, rfl, rfl⟩

/-- C10: calling `update` with an absent key and a non-dict partial value
raises, but only after installing `{}` under the key, so the error path
leaves the store changed (`get` returns the empty dict, not the default)
while `updated_at` is untouched. -/
theorem c10_update_mutates_on_error_path (ctx : SharedContext) (key : String)
    (pval : Value) (now : Nat)
    (hAbsent : hasKey ctx.data key = false)
    (hNotDict : pval.isDict = false) :
    (ctx.update key pval now).raised.isSome = true ∧
    (ctx.update key pval now).ctx.get key Value.vnull = Value.vdict [] ∧
    (ctx.update key pval now).ctx.updated_at = ctx.updated_at := by
  have hlook : lookupKey (ctx.data ++ [(key, Value.vdict [])]) key
      = some (Value.vdict []) := lookupKey_append_fresh ctx.data key _ hAbsent
  cases pval with
  | vdict l => simp [Value.isDict] at hNotDict
  | vnull =>
      simp [SharedContext.update, hAbsent, hlook, SharedContext.get]
  | vint n =>
      simp [SharedContext.update, hAbsent, hlook, SharedContext.get]
  | vstr s =>
      simp [SharedContext.update, hAbsent, hlook, SharedContext.get]
  | vlist l =>
      simp [SharedContext.update, hAbsent, hlook, SharedContext.get]

/-- Witness for C10 at a concrete input: fresh store, key `"k"`, list
partial value. -/
theorem c10_update_mutates_on_error_path_witness :
    hasKey (SharedContext.init 0).data "k" = false ∧
    (Value.vlist [Value.vint 1]).isDict = false ∧
    (((SharedContext.init 0).update "k" (Value.vlist [Value.vint 1]) 7).raised.isSome = true ∧
     ((SharedContext.init 0).update "k" (Value.vlist [Value.vint 1]) 7).ctx.get "k" Value.vnull = Value.vdict [] ∧
     ((SharedContext.init 0).update "k" (Value.vlist [Value.vint 1]) 7).ctx.updated_at = (SharedContext.init 0).updated_at) :=
  ⟨rfl, rfl,
    c10_update_mutates_on_error_path (SharedContext.init 0) "k"
      (Value.vlist [Value.vint 1]) 7 rfl rfl⟩

/-! ### `RateLimiter` — src/core/rate_limiter.py -/

/-- State of a `RateLimiter`: the two ceilings and the two sliding-window
deques (timestamps are modelled as exact
integers — the code only adds, subtracts and compares them; token counts
are naturals). -/
structure RateLimiter where
  max_tokens : ℕ
  max_requests : ℕ
  token_usage : List (ℤ × ℕ)
  request_times : List ℤ

/-- `deque(maxlen=60).append(x)`: when the deque is full the leftmost entry
is discarded. -/
def dequeAppend {α : Type} (l : List α) (x : α) : List α :=
  if 60 ≤ l.length then l.drop 1 ++ [x] else l ++ [x]

/-- Result of one `wait_if_needed` call: the limiter state after the call
and the total duration the caller was suspended (`asyncio.sleep` is
modelled as this returned duration). -/
structure AdmitResult where
  limiter : RateLimiter
  waitTime : ℤ

/-- `RateLimiter.wait_if_needed(estimated_tokens)` at wall-clock time `now`
— src/core/rate_limiter.py lines 14–41.  Old entries are evicted, the two
ceilings are checked against the pre-sleep window, a wait of
`60 - (now - oldest) + 1` is accumulated for each exceeded ceiling, and the
call is then recorded (with the pre-sleep timestamp `now`) without any
re-check.  `none` models the `IndexError` Python raises when a ceiling is
exceeded while the corresponding window is empty. -/
def RateLimiter.wait_if_needed (rl : RateLimiter) (now : ℤ) (est : ℕ) :
    Option AdmitResult :=
  let tu := rl.token_usage.dropWhile (fun e => decide (e.1 < now - 60))
  let rt := rl.request_times.dropWhile (fun t => decide (t < now - 60))
  let currentTokens := (tu.map (fun e => e.2)).sum
  let currentRequests := rt.length
  let w1 : Option ℤ :=
    if rl.max_tokens < currentTokens + est then
      tu.head?.map (fun e => 60 - (now - e.1) + 1)
    else some 0
  let w2 : Option ℤ :=
    if rl.max_requests ≤ currentRequests then
      rt.head?.map (fun t => 60 - (now - t) + 1)
    else some 0
  match w1, w2 with
  | some a, some b =>
      some { limiter := { rl with
               token_usage := dequeAppend tu (now, est),
               request_times := dequeAppend rt now },
             waitTime := a + b }
  | _, _ => none

/-- Tokens inside the 60-second window ending at time `t` (the same window
the limiter's own eviction loop uses: entries with `t - 60 ≤ timestamp`). -/
def windowTokenSum (l : List (ℤ × ℕ)) (t : ℤ) : ℕ :=
  ((l.filter (fun e => decide (t - 60 ≤ e.1))).map (fun e => e.2)).sum

/-- Requests inside the 60-second window ending at time `t`. -/
def windowRequestCount (l : List ℤ) (t : ℤ) : ℕ :=
  (l.filter (fun s => decide (t - 60 ≤ s))).length

/-- A sequential caller: each call happens no earlier than the time the
previous call finished (its call time plus the wait it was suspended for).
`false` when a call hits the `IndexError` path. -/
def sequentialFrom (t : ℤ) (rl : RateLimiter) : List (ℤ × ℕ) → Bool
  | [] => true
  | c :: rest =>
      decide (t ≤ c.1) &&
      match rl.wait_if_needed c.1 c.2 with
      | some res => sequentialFrom (c.1 + res.waitTime) res.limiter rest
      | none => false

/-- Every admission of the call sequence leaves the recorded 60-second
window within both ceilings, measured at the moment the admission is
recorded (call time plus the wait served). -/
def admissionsWithinBudget (rl : RateLimiter) : List (ℤ × ℕ) → Bool
  | [] => true
  | c :: rest =>
      match rl.wait_if_needed c.1 c.2 with
      | some res =>
          decide (windowTokenSum res.limiter.token_usage (c.1 + res.waitTime)
            ≤ rl.max_tokens) &&
          decide (windowRequestCount res.limiter.request_times (c.1 + res.waitTime)
            ≤ rl.max_requests) &&
          admissionsWithinBudget res.limiter rest
      | none => false

/-- C2 as stated: for every ceiling pair and every sequential call
sequence starting from a fresh limiter, no admission pushes the window
token sum or request count over its ceiling. -/
def rateLimiterNeverExceeds : Prop :=
  ∀ (maxT maxR : ℕ) (calls : List (ℤ × ℕ)),
    sequentialFrom 0 (RateLimiter.mk maxT maxR [] []) calls = true →
    admissionsWithinBudget (RateLimiter.mk maxT maxR [] []) calls = true

/-- Dropping a prefix never lengthens a list. -/
theorem dropWhile_length_le {α : Type} (p : α → Bool) (l : List α) :
    (l.dropWhile p).length ≤ l.length := by
  induction l with
  | nil => simp
  | cons x xs ih =>
      by_cases hx : p x
      · simp only [List.dropWhile_cons, hx, if_true]
        exact le_trans ih (Nat.le_succ _)
      · simp [List.dropWhile_cons, hx]

/-- The token sum over a filtered window is at most the sum over the whole
deque. -/
theorem sum_filter_map_le (l : List (ℤ × ℕ)) (p : ℤ × ℕ → Bool) :
    ((l.filter p).map (fun e => e.2)).sum ≤ (l.map (fun e => e.2)).sum := by
  induction l with
  | nil => simp
  | cons x xs ih =>
      cases hx : p x with
      | true =>
          simp only [List.filter_cons, hx, if_true, List.map_cons, List.sum_cons]
          omega
      | false =>
          simp only [List.filter_cons, hx, Bool.false_eq_true, if_false,
            List.map_cons, List.sum_cons]
          omega

/-- C2 counterexample: with ceilings `max_tokens = 100`,
`max_requests = 10`, the strictly sequential single-caller trace
`admit(10)` at t=0, `admit(50)` at t=30, `admit(40)` at t=50 and
`admit(40)` at t=55 makes the fourth call wait 6 seconds (computed from the
oldest sample only) and then records the admission without re-checking: at
the moment of recording (t=61) the 60-second window holds 50+40+40 = 130
tokens, above the 100-token ceiling.  So the limiter does admit calls that
push the window token sum over the ceiling. -/
theorem c2_counterexample : ¬ rateLimiterNeverExceeds := by
  intro h
  have h2 := h 100 10 [(0, 10), (30, 50), (50, 40), (55, 40)] (by decide)
  exact absurd h2 (by decide)

/-- C2 amended: the limiter never *waits* on a call that fits both ceilings,
and such a call's admission keeps the recorded 60-second window within both
ceilings; whenever a ceiling would be exceeded, the wait for that ceiling is
`60 - (now - oldest_window_sample_time) + 1`, computed from that window's
oldest sample only — when the token ceiling alone is exceeded the caller
waits the token wait, when the request ceiling alone is exceeded the
request wait, and when both are exceeded the two waits accumulate — and
the call is then recorded without any re-check (so the window sums may
exceed the ceilings, cf. the counterexample). -/
theorem c2_amended (rl : RateLimiter) (now : ℤ) (est : ℕ)
    (hTokLen : rl.token_usage.length < 60)
    (hReqLen : rl.request_times.length < 60) :
    (((rl.token_usage.dropWhile (fun e => decide (e.1 < now - 60))).map
        (fun e => e.2)).sum + est ≤ rl.max_tokens →
     (rl.request_times.dropWhile (fun t => decide (t < now - 60))).length
        < rl.max_requests →
     ∃ res, rl.wait_if_needed now est = some res ∧ res.waitTime = 0 ∧
       windowTokenSum res.limiter.token_usage now ≤ rl.max_tokens ∧
       windowRequestCount res.limiter.request_times now ≤ rl.max_requests)
    ∧
    (∀ e, rl.max_tokens <
        ((rl.token_usage.dropWhile (fun x => decide (x.1 < now - 60))).map
          (fun x => x.2)).sum + est →
     (rl.request_times.dropWhile (fun t => decide (t < now - 60))).length
        < rl.max_requests →
     (rl.token_usage.dropWhile (fun x => decide (x.1 < now - 60))).head?
        = some e →
     ∃ res, rl.wait_if_needed now est = some res ∧
       res.waitTime = 60 - (now - e.1) + 1)
    ∧
    (∀ s : ℤ,
     ((rl.token_usage.dropWhile (fun x => decide (x.1 < now - 60))).map
        (fun x => x.2)).sum + est ≤ rl.max_tokens →
     rl.max_requests ≤
        (rl.request_times.dropWhile (fun t => decide (t < now - 60))).length →
     (rl.request_times.dropWhile (fun t => decide (t < now - 60))).head?
        = some s →
     ∃ res, rl.wait_if_needed now est = some res ∧
       res.waitTime = 60 - (now - s) + 1)
    ∧
    (∀ (e : ℤ × ℕ) (s : ℤ), rl.max_tokens <
        ((rl.token_usage.dropWhile (fun x => decide (x.1 < now - 60))).map
          (fun x => x.2)).sum + est →
     rl.max_requests ≤
        (rl.request_times.dropWhile (fun t => decide (t < now - 60))).length →
     (rl.token_usage.dropWhile (fun x => decide (x.1 < now - 60))).head?
        = some e →
     (rl.request_times.dropWhile (fun t => decide (t < now - 60))).head?
        = some s →
     ∃ res, rl.wait_if_needed now est = some res ∧
       res.waitTime = (60 - (now - e.1) + 1) + (60 - (now - s) + 1)) := by
  have htu : (rl.token_usage.dropWhile (fun e => decide (e.1 < now - 60))).length < 60 :=
    lt_of_le_of_lt (dropWhile_length_le _ _) hTokLen
  have hrt : (rl.request_times.dropWhile (fun t => decide (t < now - 60))).length < 60 :=
    lt_of_le_of_lt (dropWhile_length_le _ _) hReqLen
  refine ⟨?_, ?_, ?_, ?_⟩
  · intro h1 h2
    have heq : rl.wait_if_needed now est = some
        { limiter := { rl with
            token_usage := dequeAppend
              (rl.token_usage.dropWhile (fun e => decide (e.1 < now - 60)))
              (now, est),
            request_times := dequeAppend
              (rl.request_times.dropWhile (fun t => decide (t < now - 60)))
              now },
          waitTime := 0 + 0 } := by
      simp only [RateLimiter.wait_if_needed, if_neg (not_lt.mpr h1),
        if_neg (not_le.mpr h2)]
    refine ⟨_, heq, by simp, ?_, ?_⟩
    · simp only [dequeAppend, if_neg (not_le.mpr htu), windowTokenSum,
        List.filter_append, List.map_append, List.sum_append]
      have hnew : ((List.filter (fun e => decide (now - 60 ≤ e.1))
          [((now, est) : ℤ × ℕ)]).map (fun e => e.2)).sum = est := by
        have : now - 60 ≤ now := sub_le_self now (by norm_num)
        simp [List.filter, this]
      rw [hnew]
      have := sum_filter_map_le
        (rl.token_usage.dropWhile (fun e => decide (e.1 < now - 60)))
        (fun e => decide (now - 60 ≤ e.1))
      omega
    · simp only [dequeAppend, if_neg (not_le.mpr hrt), windowRequestCount,
        List.filter_append, List.length_append]
      have hone : (List.filter (fun s => decide (now - 60 ≤ s)) [now]).length ≤ 1 := by
        have : now - 60 ≤ now := sub_le_self now (by norm_num)
        simp [List.filter, this]
      have := List.length_filter_le (fun s => decide (now - 60 ≤ s))
        (rl.request_times.dropWhile (fun t => decide (t < now - 60)))
      omega
  · intro e h1 h2 he
    have heq : rl.wait_if_needed now est = some
        { limiter := { rl with
            token_usage := dequeAppend
              (rl.token_usage.dropWhile (fun x => decide (x.1 < now - 60)))
              (now, est),
            request_times := dequeAppend
              (rl.request_times.dropWhile (fun t => decide (t < now - 60)))
              now },
          waitTime := (60 - (now - e.1) + 1) + 0 } := by
      simp only [RateLimiter.wait_if_needed, if_pos h1,
        if_neg (not_le.mpr h2), he, Option.map_some']
    exact ⟨_, heq, by simp⟩
  · intro s h1 h2 hs
    have heq : rl.wait_if_needed now est = some
        { limiter := { rl with
            token_usage := dequeAppend
              (rl.token_usage.dropWhile (fun x => decide (x.1 < now - 60)))
              (now, est),
            request_times := dequeAppend
              (rl.request_times.dropWhile (fun t => decide (t < now - 60)))
              now },
          waitTime := 0 + (60 - (now - s) + 1) } := by
      simp only [RateLimiter.wait_if_needed, if_neg (not_lt.mpr h1),
        if_pos h2, hs, Option.map_some']
    exact ⟨_, heq, by simp⟩
  · intro e s h1 h2 he hs
    have heq : rl.wait_if_needed now est = some
        { limiter := { rl with
            token_usage := dequeAppend
              (rl.token_usage.dropWhile (fun x => decide (x.1 < now - 60)))
              (now, est),
            request_times := dequeAppend
              (rl.request_times.dropWhile (fun t => decide (t < now - 60)))
              now },
          waitTime := (60 - (now - e.1) + 1) + (60 - (now - s) + 1) } := by
      simp only [RateLimiter.wait_if_needed, if_pos h1, if_pos h2, he, hs,
        Option.map_some']
    exact ⟨_, heq, rfl⟩

/-- Witness for C2 amended at concrete limiters: one 40-token sample at
t=0, a second `admit(40)` at t=30 fits the 100-token ceiling, waits 0 and
stays within budget; with the higher demand `admit(70)` (token ceiling
exceeded) the wait is `60 - (30 - 0) + 1 = 31`; with the request ceiling 2
already met the wait is likewise 31 computed from the oldest request; and
with both ceilings exceeded the two waits accumulate. -/
theorem c2_amended_witness :
    ((RateLimiter.mk 100 10 [((0:ℤ), (40:ℕ))] [(0:ℤ)]).token_usage.length < 60) ∧
    ((RateLimiter.mk 100 10 [((0:ℤ), (40:ℕ))] [(0:ℤ)]).request_times.length < 60) ∧
    (∃ res, (RateLimiter.mk 100 10 [((0:ℤ), (40:ℕ))] [(0:ℤ)]).wait_if_needed 30 40
        = some res ∧ res.waitTime = 0 ∧
        windowTokenSum res.limiter.token_usage 30 ≤ 100 ∧
        windowRequestCount res.limiter.request_times 30 ≤ 10) ∧
    (∃ res, (RateLimiter.mk 100 10 [((0:ℤ), (40:ℕ))] [(0:ℤ)]).wait_if_needed 30 70
        = some res ∧ res.waitTime = 60 - (30 - 0) + 1) ∧
    (∃ res, (RateLimiter.mk 1000 2 [((0:ℤ), (40:ℕ))] [(0:ℤ), 10]).wait_if_needed 30 40
        = some res ∧ res.waitTime = 60 - (30 - 0) + 1) ∧
    (∃ res, (RateLimiter.mk 100 2 [((0:ℤ), (40:ℕ))] [(0:ℤ), 10]).wait_if_needed 30 70
        = some res ∧
        res.waitTime = (60 - (30 - (0:ℤ)) + 1) + (60 - (30 - 0) + 1)) :=
  ⟨by decide, by decide,
   (c2_amended (RateLimiter.mk 100 10 [(0, 40)] [0]) 30 40 (by decide) (by decide)).1
     (by decide) (by decide),
   (c2_amended (RateLimiter.mk 100 10 [(0, 40)] [0]) 30 70 (by decide) (by decide)).2.1
     (0, 40) (by decide) (by decide) (by decide),
   (c2_amended (RateLimiter.mk 1000 2 [(0, 40)] [0, 10]) 30 40 (by decide) (by decide)).2.2.1
     0 (by decide) (by decide) (by decide),
   (c2_amended (RateLimiter.mk 100 2 [(0, 40)] [0, 10]) 30 70 (by decide) (by decide)).2.2.2
     (0, 40) 0 (by decide) (by decide) (by decide) (by decide)⟩

/-! ### Coordinator control flow and observability events
src/agents/coordinator.py (`CoordinatorAgent.execute_analysis`) together
with src/core/observability.py (`ObservabilityPlugin`).  The run uses a
single `trace_id`, so an observability event is identified by its kind and
the agent/tool name.  Spans are appended to the trace only by the agent
callbacks (`"{name}_start"` / `"{name}_end"`); tool callbacks only bump
counters.  The awaited tool/agent calls are abstracted by their outcome:
return a successful result, return a failed result, or raise. -/

/-- One observability callback invocation of the run. -/
inductive Event where
  | beforeAgent (name : String)
  | afterAgent (name : String)
  | beforeTool (name : String)
  | afterTool (name : String)
  | onError
deriving DecidableEq, Repr

/-- Outcome of one awaited tool `execute` call: a `ToolResult` with
`success=True`, a `ToolResult` with `success=False`, or a raised
exception. -/
inductive ToolCallOutcome where
  | ok
  | fail
  | raises
deriving DecidableEq, Repr

/-- Outcome of one awaited sub-agent call. -/
inductive AgentCallOutcome where
  | returns
  | raises
deriving DecidableEq, Repr

/-- Behaviour of the environment during one `execute_analysis` run: the
outcome of each awaited call, in program order (`extractRaises` covers the
`float(row['revenue'])` comprehension between the load and detect steps,
which can raise on malformed rows). -/
structure RunEnv where
  loadOutcome : ToolCallOutcome
  extractRaises : Bool
  iqrOutcome : ToolCallOutcome
  zscoreOutcome : ToolCallOutcome
  analystOutcome : AgentCallOutcome
  recommenderOutcome : AgentCallOutcome
  reportOutcome : ToolCallOutcome
deriving DecidableEq

/-- How `execute_analysis` terminates: `return None`, return of the
successful report result, or a re-raised exception. -/
inductive RunOutput where
  | returnedNone
  | returnedReport
  | raised
deriving DecidableEq, Repr

/-- `CoordinatorAgent.execute_analysis` — src/agents/coordinator.py lines
50–192 — reduced to the sequence of observability events it emits and the
way it terminates.  Mirrors the source: the load failure path logs the
error, emits `on_error` and the coordinator `after` event and returns
`None` (lines 72–81); detector failures are skipped without `on_error`
(lines 107–110); any exception inside the `try` block reaches the
`except` handler, which emits `on_error` plus the coordinator `after`
event only, and re-raises (lines 189–192). -/
def execute_analysis (env : RunEnv) : List Event × RunOutput :=
  let evs1 := [Event.beforeAgent "Coordinator", Event.beforeTool "load_csv_data"]
  match env.loadOutcome with
  | ToolCallOutcome.raises =>
      (evs1 ++ [Event.onError, Event.afterAgent "Coordinator"], RunOutput.raised)
  | ToolCallOutcome.fail =>
      (evs1 ++ [Event.afterTool "load_csv_data", Event.onError,
        Event.afterAgent "Coordinator"], RunOutput.returnedNone)
  | ToolCallOutcome.ok =>
      let evs2 := evs1 ++ [Event.afterTool "load_csv_data"]
      if env.extractRaises then
        (evs2 ++ [Event.onError, Event.afterAgent "Coordinator"], RunOutput.raised)
      else
        let evs3 := evs2 ++ [Event.beforeTool "detect_anomalies"]
        match env.iqrOutcome with
        | ToolCallOutcome.raises =>
            (evs3 ++ [Event.onError, Event.afterAgent "Coordinator"], RunOutput.raised)
        | _ =>
          let evs4 := evs3 ++ [Event.afterTool "detect_anomalies",
            Event.beforeTool "detect_anomalies"]
          match env.zscoreOutcome with
          | ToolCallOutcome.raises =>
              (evs4 ++ [Event.onError, Event.afterAgent "Coordinator"], RunOutput.raised)
          | _ =>
            let evs5 := evs4 ++ [Event.afterTool "detect_anomalies",
              Event.beforeAgent "AnalystAgent"]
            match env.analystOutcome with
            | AgentCallOutcome.raises =>
                (evs5 ++ [Event.onError, Event.afterAgent "Coordinator"], RunOutput.raised)
            | AgentCallOutcome.returns =>
              let evs6 := evs5 ++ [Event.afterAgent "AnalystAgent",
                Event.beforeAgent "RecommendationAgent"]
              match env.recommenderOutcome with
              | AgentCallOutcome.raises =>
                  (evs6 ++ [Event.onError, Event.afterAgent "Coordinator"], RunOutput.raised)
              | AgentCallOutcome.returns =>
                let evs7 := evs6 ++ [Event.afterAgent "RecommendationAgent",
                  Event.beforeTool "generate_report_html"]
                match env.reportOutcome with
                | ToolCallOutcome.raises =>
                    (evs7 ++ [Event.onError, Event.afterAgent "Coordinator"],
                     RunOutput.raised)
                | ToolCallOutcome.fail =>
                    (evs7 ++ [Event.afterTool "generate_report_html",
                      Event.afterAgent "Coordinator"], RunOutput.returnedNone)
                | ToolCallOutcome.ok =>
                    (evs7 ++ [Event.afterTool "generate_report_html",
                      Event.afterAgent "Coordinator"], RunOutput.returnedReport)

/-- The span an event appends to the run's trace, if any: only the agent
callbacks append spans (src/core/observability.py lines 46–49 and
54–58). -/
def spanName : Event → Option String
  | Event.beforeAgent n => some (n ++ "_start")
  | Event.afterAgent n => some (n ++ "_end")
  | _ => none

/-- The ordered span list of the run's trace. -/
def spansOf (evs : List Event) : List String :=
  evs.filterMap spanName

/-- The `after_*` event a `before_*` event must be followed by. -/
def matchingAfter : Event → Option Event
  | Event.beforeAgent n => some (Event.afterAgent n)
  | Event.beforeTool n => some (Event.afterTool n)
  | _ => none

/-- Every `before_*` event in the list is eventually followed by its
matching `after_*` event. -/
def eventuallyPaired : List Event → Bool
  | [] => true
  | e :: rest =>
      (match matchingAfter e with
       | some a => rest.any (fun x => x == a)
       | none => true) && eventuallyPaired rest

/-- C1: when the data-load phase fails, the run's trace consists of the
coordinator start/end spans only — no `detect_anomalies`, `AnalystAgent`,
`RecommendationAgent` or `generate_report_html` event of any kind is
emitted (hence no span of any later phase exists for the trace_id) — and
`execute_analysis` returns `None`. -/
theorem c1_load_failure_short_circuits (env : RunEnv)
    (h : env.loadOutcome = ToolCallOutcome.fail) :
    (execute_analysis env).1 = [Event.beforeAgent "Coordinator",
      Event.beforeTool "load_csv_data", Event.afterTool "load_csv_data",
      Event.onError, Event.afterAgent "Coordinator"] ∧
    spansOf (execute_analysis env).1 = ["Coordinator_start", "Coordinator_end"] ∧
    (execute_analysis env).2 = RunOutput.returnedNone := by
  obtain ⟨lo, ex, iq, zs, an, re, rp⟩ := env
  cases h
  exact ⟨rfl, rfl, rfl⟩

/-- Witness for C1 at a concrete run environment (failing load, everything
else well-behaved). -/
theorem c1_load_failure_short_circuits_witness :
    (RunEnv.mk ToolCallOutcome.fail false ToolCallOutcome.ok ToolCallOutcome.ok
      AgentCallOutcome.returns AgentCallOutcome.returns ToolCallOutcome.ok).loadOutcome
      = ToolCallOutcome.fail ∧
    ((execute_analysis (RunEnv.mk ToolCallOutcome.fail false ToolCallOutcome.ok
        ToolCallOutcome.ok AgentCallOutcome.returns AgentCallOutcome.returns
        ToolCallOutcome.ok)).1 = [Event.beforeAgent "Coordinator",
        Event.beforeTool "load_csv_data", Event.afterTool "load_csv_data",
        Event.onError, Event.afterAgent "Coordinator"] ∧
     spansOf (execute_analysis (RunEnv.mk ToolCallOutcome.fail false
        ToolCallOutcome.ok ToolCallOutcome.ok AgentCallOutcome.returns
        AgentCallOutcome.returns ToolCallOutcome.ok)).1
        = ["Coordinator_start", "Coordinator_end"] ∧
     (execute_analysis (RunEnv.mk ToolCallOutcome.fail false ToolCallOutcome.ok
        ToolCallOutcome.ok AgentCallOutcome.returns AgentCallOutcome.returns
        ToolCallOutcome.ok)).2 = RunOutput.returnedNone) :=
  ⟨rfl, c1_load_failure_short_circuits _ rfl⟩

/-- C3 as stated: in every run, every `before_*` event is eventually
followed by its matching `after_*` event. -/
def everyBeforePaired : Prop :=
  ∀ env : RunEnv, eventuallyPaired (execute_analysis env).1 = true

/-- C3 counterexample: in the run whose load succeeds and whose
`AnalystAgent.analyze` call raises, the `before_agent("AnalystAgent")`
event is never followed by an `after_agent("AnalystAgent")` event — the
`except` handler closes only the Coordinator span (coordinator.py lines
189–192). -/
theorem c3_counterexample : ¬ everyBeforePaired := by
  intro h
  exact absurd
    (h (RunEnv.mk ToolCallOutcome.ok false ToolCallOutcome.ok ToolCallOutcome.ok
      AgentCallOutcome.raises AgentCallOutcome.returns ToolCallOutcome.ok))
    (by decide)

/-- No awaited call of the run raises (the revenue-extraction
comprehension between calls may still raise). -/
def noWrappedRaise (env : RunEnv) : Bool :=
  !(env.loadOutcome == ToolCallOutcome.raises) &&
  !(env.iqrOutcome == ToolCallOutcome.raises) &&
  !(env.zscoreOutcome == ToolCallOutcome.raises) &&
  !(env.analystOutcome == AgentCallOutcome.raises) &&
  !(env.recommenderOutcome == AgentCallOutcome.raises) &&
  !(env.reportOutcome == ToolCallOutcome.raises)

/-- C3 amended: the coordinator's own `before` event is always followed by
its matching `after` event, on every path — including failed ToolResults,
exceptions raised by awaited calls, and exceptions between calls.  Full
before/after pairing holds whenever no awaited call raises (failed
ToolResults and an exception in the revenue-extraction step included); an
exception raised *inside* an awaited sub-agent or tool call leaves that
inner pair unmatched. -/
theorem c3_amended (env : RunEnv) :
    ((execute_analysis env).1).any
      (fun e => e == Event.afterAgent "Coordinator") = true ∧
    (noWrappedRaise env = true →
      eventuallyPaired (execute_analysis env).1 = true) := by
  obtain ⟨lo, ex, iq, zs, an, re, rp⟩ := env
  cases lo <;> cases ex <;> cases iq <;> cases zs <;> cases an <;> cases re <;>
    cases rp <;> exact ⟨by decide, by decide⟩

/-- Witness for C3 amended at a concrete run environment: the all-success
run has every before event matched. -/
theorem c3_amended_witness :
    noWrappedRaise (RunEnv.mk ToolCallOutcome.ok false ToolCallOutcome.ok
      ToolCallOutcome.ok AgentCallOutcome.returns AgentCallOutcome.returns
      ToolCallOutcome.ok) = true ∧
    eventuallyPaired (execute_analysis (RunEnv.mk ToolCallOutcome.ok false
      ToolCallOutcome.ok ToolCallOutcome.ok AgentCallOutcome.returns
      AgentCallOutcome.returns ToolCallOutcome.ok)).1 = true :=
  ⟨by decide,
   (c3_amended (RunEnv.mk ToolCallOutcome.ok false ToolCallOutcome.ok
      ToolCallOutcome.ok AgentCallOutcome.returns AgentCallOutcome.returns
      ToolCallOutcome.ok)).2 (by decide)⟩

/-! ### Anomaly detector tool (modelled from the specification)
`tools/__init__.py` imports `AnomalyDetectorTool` from
`tools/anomaly_detector.py`, and the coordinator invokes
`detector.execute(data=…, method=…, threshold=…)` with a numeric series
(coordinator.py lines 87–104), but the class definition is absent from the
source tree — `src/tools/anomaly_detector.py` only holds a drifted,
config-driven row-based variant with a different signature.  The tool is
therefore modelled from spec §4.5.  Numbers are exact rationals. -/

/-- Outcome of `AnomalyDetectorTool.execute`: a successful `ToolResult`
with payload `{anomalies, count, method}`, or a failure with a categorised
error kind. -/
inductive DetectOutcome where
  | ok (anomalies : List ℚ) (count : Nat) (method : String)
  | err (kind : String)
deriving DecidableEq, Repr

/-- Insert into a sorted list (ascending). -/
def insertSorted (x : ℚ) : List ℚ → List ℚ
  | [] => [x]
  | y :: ys => if x ≤ y then x :: y :: ys else y :: insertSorted x ys

/-- `sorted(data)` (insertion sort; sorting is stable and the quantile
computation only reads the sorted values). -/
def sortQ (xs : List ℚ) : List ℚ := xs.foldr insertSorted []

/-- `data[i]` with the bounds already enforced by the caller. -/
def nthQ (xs : List ℚ) (i : Nat) : ℚ := xs.getD i 0

/-- The i-th 4-quantile (i ∈ {1,2,3}) of a sorted list by the
linear-interpolation method the spec names for IQR (the exclusive method
of Python's `statistics.quantiles(values, n=4)`, which the repository's
drifted detector variant also uses): position `i*(ld+1)/4` with linear
interpolation between the two neighbouring order statistics, clamped to
the ends. -/
def quantileExc (sorted : List ℚ) (i : Nat) : ℚ :=
  let ld := sorted.length
  let m := ld + 1
  let j0 := (i * m) / 4
  let delta := (i * m) % 4
  let j := if j0 < 1 then 1 else if ld - 1 < j0 then ld - 1 else j0
  (nthQ sorted (j - 1) * ((4 : ℚ) - (delta : ℚ)) + nthQ sorted j * (delta : ℚ)) / 4

/-- Modelled from the spec: `AnomalyDetectorTool.execute(data, method,
threshold)`, whose class body is missing from the source tree (spec §4.5).
Preconditions `len(data) >= 3` for `"iqr"` and `len(data) >= 2` for
`"zscore"`, else `InsufficientData`; unknown method fails with
`UnsupportedMethod`.  IQR: values outside
`[q1 - threshold*iqr, q3 + threshold*iqr]` are anomalies.  Z-score: sample
mean and sample variance (n-1 denominator); a value is anomalous when
`|value - mean| / stdev > threshold`, encoded without square roots as
`(value - mean)^2 > threshold^2 * variance` (equivalent for the spec's
nonnegative thresholds); when the variance is zero no value is flagged.
Anomalies keep input order. -/
def detect (data : List ℚ) (method : String) (threshold : ℚ) : DetectOutcome :=
  if method = "iqr" then
    if data.length < 3 then DetectOutcome.err "InsufficientData"
    else
      let s := sortQ data
      let q1 := quantileExc s 1
      let q3 := quantileExc s 3
      let iqr := q3 - q1
      let lower := q1 - threshold * iqr
      let upper := q3 + threshold * iqr
      let anomalies := data.filter (fun v => decide (v < lower) || decide (upper < v))
      DetectOutcome.ok anomalies anomalies.length "iqr"
  else if method = "zscore" then
    if data.length < 2 then DetectOutcome.err "InsufficientData"
    else
      let mean := data.sum / (data.length : ℚ)
      let variance := (data.map (fun v => (v - mean) ^ 2)).sum / ((data.length : ℚ) - 1)
      if variance = 0 then DetectOutcome.ok [] 0 "zscore"
      else
        let anomalies := data.filter
          (fun v => decide (threshold ^ 2 * variance < (v - mean) ^ 2))
        DetectOutcome.ok anomalies anomalies.length "zscore"
  else DetectOutcome.err "UnsupportedMethod"

/-- C5: any input shorter than the method's minimum length (3 for `"iqr"`,
2 for `"zscore"`) makes the detector fail with `InsufficientData`. -/
theorem c5_insufficient_data (data : List ℚ) (threshold : ℚ) (method : String)
    (h : (method = "iqr" ∧ data.length < 3) ∨
         (method = "zscore" ∧ data.length < 2)) :
    detect data method threshold = DetectOutcome.err "InsufficientData" := by
  rcases h with ⟨hm, hl⟩ | ⟨hm, hl⟩
  · subst hm
    simp only [detect, if_pos rfl, if_pos hl, if_true]
  · subst hm
    simp only [detect, if_neg (by decide : ¬ (("zscore" : String) = "iqr")),
      if_pos rfl, if_pos hl, if_true]

/-- Witness for C5 at the claim's concrete input `data=[1,2]`,
`method="iqr"` (Python default threshold 1.5 = 3/2). -/
theorem c5_insufficient_data_witness :
    (("iqr" = "iqr" ∧ ([(1 : ℚ), 2]).length < 3) ∨
     ("iqr" = "zscore" ∧ ([(1 : ℚ), 2]).length < 2)) ∧
    detect [(1 : ℚ), 2] "iqr" (3 / 2) = DetectOutcome.err "InsufficientData" :=
  ⟨Or.inl ⟨rfl, by decide⟩,
   c5_insufficient_data [(1 : ℚ), 2] (3 / 2) "iqr" (Or.inl ⟨rfl, by decide⟩)⟩

/-- C6: any method name other than `"iqr"` and `"zscore"` makes the
detector fail with `UnsupportedMethod` — it never reports success. -/
theorem c6_unsupported_method (data : List ℚ) (threshold : ℚ) (method : String)
    (h1 : method ≠ "iqr") (h2 : method ≠ "zscore") :
    detect data method threshold = DetectOutcome.err "UnsupportedMethod" := by
  simp only [detect, if_neg h1, if_neg h2]

/-- Witness for C6 at a concrete unknown method name. -/
theorem c6_unsupported_method_witness :
    ("median" ≠ "iqr") ∧ ("median" ≠ "zscore") ∧
    detect [(1 : ℚ), 2, 3] "median" 2 = DetectOutcome.err "UnsupportedMethod" :=
  ⟨by decide, by decide,
   c6_unsupported_method [(1 : ℚ), 2, 3] 2 "median" (by decide) (by decide)⟩

/-- C7: the IQR detector is a pure function (repeated calls on the same
`data` and `threshold` give identical results), and on the claim's example
`data=[50000,52000,48000,51000,120000,49000]`, `threshold=1.5`, the
anomalies are exactly `[120000]` with `count = 1`
(q1 = 48750, q3 = 69000, bounds [18375, 99375]). -/
theorem c7_iqr_determinism_and_example :
    (∀ (d : List ℚ) (m : String) (t : ℚ), detect d m t = detect d m t) ∧
    detect [50000, 52000, 48000, 51000, 120000, 49000] "iqr" (3 / 2)
      = DetectOutcome.ok [120000] 1 "iqr" := by
  refine ⟨fun d m t => rfl, ?_⟩
  norm_num [detect, sortQ, insertSorted, quantileExc, nthQ, List.filter]

/-- C8: on every constant series of length at least 2, the Z-score method
returns a success with an empty anomaly list (zero variance flags nothing
and causes no division failure). -/
theorem c8_zscore_zero_variance (n : Nat) (c t : ℚ) (h : 2 ≤ n) :
    detect (List.replicate n c) "zscore" t = DetectOutcome.ok [] 0 "zscore" := by
  have hne : ¬ (("zscore" : String) = "iqr") := by decide
  have hlen : ¬ ((List.replicate n c).length < 2) := by
    simp only [List.length_replicate]; omega
  have hmean : (List.replicate n c).sum / ((List.replicate n c).length : ℚ) = c := by
    rw [List.sum_replicate, nsmul_eq_mul, List.length_replicate]
    have hnz : (n : ℚ) ≠ 0 := Nat.cast_ne_zero.mpr (by omega)
    field_simp
  have hvar : ((List.replicate n c).map
      (fun v => (v - (List.replicate n c).sum /
        ((List.replicate n c).length : ℚ)) ^ 2)).sum
      / (((List.replicate n c).length : ℚ) - 1) = 0 := by
    rw [hmean]
    simp [List.map_replicate, List.sum_replicate]
  simp only [detect, if_neg hne, if_pos rfl, if_neg hlen, if_pos hvar, if_true]

/-- Witness for C8 at the claim's concrete input `data=[10,10,10]`. -/
theorem c8_zscore_zero_variance_witness :
    List.replicate 3 (10 : ℚ) = [10, 10, 10] ∧ 2 ≤ 3 ∧
    detect (List.replicate 3 (10 : ℚ)) "zscore" 2
      = DetectOutcome.ok [] 0 "zscore" :=
  ⟨rfl, by decide, c8_zscore_zero_variance 3 10 2 (by decide)⟩

/-! ### Report assembly — coordinator.py lines 137–158 together with
`AnalystAgent._extract_patterns` (analyst.py lines 133–185). -/

/-- One input row of the loaded CSV data, restricted to the fields the
analyst reads (`row['date']`, `float(row['revenue'])`). -/
structure Row where
  date : String
  revenue : ℚ

/-- The dict form of an `AnomalyPattern` stored under `analysis_result`
(analyst.py `_pattern_to_dict`), restricted to the fields the report
assembly reads. -/
structure PatternDict where
  metric : String
  pattern_type : String
  severity : String
  values : List ℚ
  timestamps : List String
  magnitude : ℚ
  confidence : ℚ

/-- The dict form of an `ActionItem` stored under `recommendation_result`,
restricted to the fields the report assembly reads. -/
structure ActionItemDict where
  priority : Nat
  title : String
  description : String

/-- One entry of the report's `issues` list. -/
structure Issue where
  description : String
  severity : String
deriving DecidableEq, Repr

/-- The assembled `report_data` payload. -/
structure ReportData where
  title : String
  issues : List Issue
  recommendations : List String
deriving DecidableEq, Repr

/-- Python `str.capitalize()`: first character upper-cased, the rest
lower-cased. -/
def pyCapitalize (s : String) : String :=
  match s.data with
  | [] => s
  | c :: cs => String.mk (c.toUpper :: cs.map Char.toLower)

/-- Python `f"{x}"` for the float pattern value (decimal rendering of the
float is abstracted to exact-rational rendering; integral values print
with a trailing `.0` as Python floats do). -/
def formatPyNumber (q : ℚ) : String :=
  if q.den = 1 then toString q.num ++ ".0" else toString q

/-- Python `f"{x:.1f}"`: round to one decimal place, ties to even
(decimal rendering of the float abstracted to exact-rational rounding). -/
def formatOneDecimal (q : ℚ) : String :=
  let scaled := q * 10
  let fl := scaled.floor
  let r : ℤ :=
    if 1 / 2 < scaled - (fl : ℚ) then fl + 1
    else if scaled - (fl : ℚ) < 1 / 2 then fl
    else if fl % 2 = 0 then fl else fl + 1
  let sign := if r < 0 then "-" else ""
  sign ++ toString (r.natAbs / 10) ++ "." ++ toString (r.natAbs % 10)

/-- `AnalystAgent._extract_patterns(raw_data, anomalies)` — analyst.py
lines 133–185: empty anomaly list short-circuits to no patterns; otherwise
each anomaly becomes one pattern whose type/severity follow the deviation
of the value from the average revenue, with the matching row's date as
timestamp (`"unknown"` when the value is not found). -/
def extract_patterns (raw_data : List Row) (anomalies : List ℚ) :
    List PatternDict :=
  if anomalies.isEmpty then []
  else
    let revenues := raw_data.map (fun r => r.revenue)
    let dates := raw_data.map (fun r => r.date)
    let avg_revenue := revenues.sum / (revenues.length : ℚ)
    anomalies.map (fun a =>
      let timestamp :=
        match revenues.findIdx? (fun v => v == a) with
        | some idx => dates.getD idx "unknown"
        | none => "unknown"
      let deviation_pct := (a - avg_revenue) / avg_revenue * 100
      let ps :=
        if 20 < deviation_pct then ("spike", "HIGH")
        else if deviation_pct < -20 then ("drop", "HIGH")
        else if 10 < |deviation_pct| then ("trend", "MEDIUM")
        else ("fluctuation", "LOW")
      { metric := "revenue", pattern_type := ps.1, severity := ps.2,
        values := [a], timestamps := [timestamp],
        magnitude := |deviation_pct|, confidence := 85 / 100 })

/-- Step 5 of `execute_analysis` — coordinator.py lines 137–158: issues
from the analysis patterns, recommendations from the top-5 action items,
with the non-empty defaults substituted when either list comes out
empty. -/
def buildReportData (patterns : List PatternDict)
    (action_items : List ActionItemDict) : ReportData :=
  let issues := patterns.flatMap (fun p => p.values.map (fun v =>
    { description := pyCapitalize p.pattern_type ++ " detected in " ++
        p.metric ++ ": " ++ formatPyNumber v ++ " (" ++
        formatOneDecimal p.magnitude ++ "% deviation)",
      severity := p.severity.toLower } ))
  let recommendations := (action_items.take 5).map (fun a =>
    "[Priority " ++ toString a.priority ++ "] " ++ a.title ++ ": " ++
      a.description)
  { title := "Business Analytics Report - Multi-Agent Analysis",
    issues := if issues.isEmpty then
        [{ description := "No significant anomalies detected", severity := "low" }]
      else issues,
    recommendations := if recommendations.isEmpty then
        ["Continue monitoring business metrics"]
      else recommendations }

/-- C9: a run that detects zero anomalies (hence the analyst emits zero
patterns) and generates zero recommendations assembles a report whose
issues are exactly the low-severity default and whose recommendations are
exactly the monitoring default — the report is never blank. -/
theorem c9_report_defaults (raw_data : List Row) (anomalies : List ℚ)
    (action_items : List ActionItemDict)
    (hAnoms : anomalies = []) (hActs : action_items = []) :
    buildReportData (extract_patterns raw_data anomalies) action_items =
      { title := "Business Analytics Report - Multi-Agent Analysis",
        issues := [{ description := "No significant anomalies detected",
                     severity := "low" }],
        recommendations := ["Continue monitoring business metrics"] } := by
  subst hAnoms
  subst hActs
  rfl

/-- Witness for C9 at a concrete run: a small clean dataset, no anomalies,
no action items. -/
theorem c9_report_defaults_witness :
    ([] : List ℚ) = [] ∧ ([] : List ActionItemDict) = [] ∧
    buildReportData
        (extract_patterns [Row.mk "2024-11-01" 50000, Row.mk "2024-11-02" 50000] [])
        [] =
      { title := "Business Analytics Report - Multi-Agent Analysis",
        issues := [{ description := "No significant anomalies detected",
                     severity := "low" }],
        recommendations := ["Continue monitoring business metrics"] } :=
  ⟨rfl, rfl,
   c9_report_defaults [Row.mk "2024-11-01" 50000, Row.mk "2024-11-02" 50000]
     [] [] rfl rfl⟩

end Capstone
